import Mathlib

/-!
Verification of the room-scoped todo bot core (`bot_core.py`).

The backing store (Postgres tables `rooms`, `room_members`, `todos`, `users`)
is embedded as an explicit record `DB`; each store-touching Python function
becomes a Lean function from a `DB` (plus its arguments) to its result and the
committed successor state.  A connection that is closed without `commit` rolls
back, so every early-return path in the source leaves the state unchanged and
is embedded as returning the input `DB`.

External effects are made explicit:
* the password hash (`hashlib.sha256(...).hexdigest()`) is an opaque external
  function, passed as a parameter `h : String → String`;
* `random.randint(1000, 9999)` is modelled by a supply of naturals
  (`randoms : List Nat`), each draw mapped into the range 1000..9999;
* a persistence failure (a `psycopg2` exception on commit) is modelled by a
  boolean `persistOk`: when false the operation takes its exception path.
-/

namespace BotCore

/-- A row of the `rooms` table.  The `password` column stores the hash
(`create_room` inserts `hash_password(password)`). -/
structure Room where
  room_code : String
  room_name : String
  password : String
  owner_id : Int
  deriving Repr, DecidableEq

/-- A row of the `room_members` table (the pair carries a UNIQUE constraint). -/
structure Member where
  room_code : String
  user_id : Int
  deriving Repr, DecidableEq

/-- A row of the `todos` table (`id` is the SERIAL primary key;
`created_at` ordering is the list order). -/
structure Todo where
  id : Nat
  room_code : String
  user_id : Int
  category : String
  task : String
  deriving Repr, DecidableEq

/-- The committed state of the backing store.  `next_id` models the SERIAL
sequence feeding `todos.id`; list order models `created_at` / `joined_at`
insertion order. -/
structure DB where
  rooms : List Room
  room_members : List Member
  todos : List Todo
  users : List Int
  next_id : Nat
  deriving Repr, DecidableEq

/-- `SELECT 1 FROM rooms WHERE room_code = %s` returns a row. -/
def roomExists (db : DB) (room_code : String) : Bool :=
  db.rooms.any (fun r => r.room_code == room_code)

/-- `SELECT 1 FROM room_members WHERE room_code = %s AND user_id = %s`
returns a row. -/
def isMember (db : DB) (room_code : String) (user_id : Int) : Bool :=
  db.room_members.any (fun m => m.room_code == room_code && m.user_id == user_id)

/-- Number of `room_members` rows for the pair (at most 1 under the table's
UNIQUE constraint). -/
def memberCount (db : DB) (room_code : String) (user_id : Int) : Nat :=
  (db.room_members.filter
    (fun m => m.room_code == room_code && m.user_id == user_id)).length

/-- `generate_room_code`: `str(random.randint(1000, 9999))`, with the random
draw supplied as a natural mapped into the inclusive range 1000..9999. -/
def generate_room_code (r : Nat) : String :=
  toString (1000 + r % 9000)

/-- The retry loop of `create_room`: draw codes until one is absent from
`rooms`; `none` when the finite supply of modelled draws is exhausted
(the Python loop would keep drawing). -/
def freshCode (db : DB) : List Nat → Option String
  | [] => none
  | r :: rs =>
    let code := generate_room_code r
    if roomExists db code then freshCode db rs else some code

/-- `create_room(room_name, password, owner_id)`: find a fresh code, insert the
room row with the hashed password and the owner's membership row, then commit.
`Except.error db` is the exception path (rollback, re-raise): the pre-state is
what stays committed.  `none` only when the modelled random supply ran out. -/
def create_room (h : String → String) (db : DB) (room_name password : String)
    (owner_id : Int) (randoms : List Nat) (persistOk : Bool) :
    Option (Except DB (String × DB)) :=
  (freshCode db randoms).map (fun room_code =>
    if persistOk then
      Except.ok (room_code,
        { db with
          rooms := db.rooms ++ [⟨room_code, room_name, h password, owner_id⟩],
          room_members := db.room_members ++ [⟨room_code, owner_id⟩] })
    else
      Except.error db)

/-- `join_room(room_code, password, user_id)`: look the room up, compare
`hash_password(password)` with the stored hash, then
`INSERT ... ON CONFLICT (room_code, user_id) DO NOTHING` and commit. -/
def join_room (h : String → String) (db : DB) (room_code password : String)
    (user_id : Int) : (Bool × String) × DB :=
  match db.rooms.find? (fun r => r.room_code == room_code) with
  | none => ((false, "房間不存在"), db)
  | some r =>
    if h password != r.password then
      ((false, "密碼錯誤"), db)
    else if isMember db room_code user_id then
      ((true, r.room_name), db)
    else
      ((true, r.room_name),
        { db with room_members := db.room_members ++ [⟨room_code, user_id⟩] })

/-- `leave_room(room_code, user_id)`: look the room name up, `DELETE` the
membership row, commit, and report success iff `rowcount > 0`. -/
def leave_room (db : DB) (room_code : String) (user_id : Int) :
    (Bool × String) × DB :=
  match db.rooms.find? (fun r => r.room_code == room_code) with
  | none => ((false, "房間不存在"), db)
  | some r =>
    let remaining := db.room_members.filter
      (fun m => !(m.room_code == room_code && m.user_id == user_id))
    let db' := { db with room_members := remaining }
    if remaining.length < db.room_members.length then
      ((true, r.room_name), db')
    else
      ((false, "您不在該房間中"), db')

/-- `add_todo_to_db(room_code, user_id, category, task)`: ensure the user row,
check the room exists, check the caller's membership row, insert the todo and
commit.  Every `return None` path closes the connection without commit, so the
uncommitted user insert rolls back and the state is unchanged.  `persistOk =
false` is the exception path (rollback, `return None`). -/
def add_todo_to_db (db : DB) (room_code : String) (user_id : Int)
    (category task : String) (persistOk : Bool) : Option Nat × DB :=
  if !roomExists db room_code then (none, db)
  else if !isMember db room_code user_id then (none, db)
  else if persistOk then
    (some db.next_id,
      { db with
        users := if db.users.contains user_id then db.users
                 else db.users ++ [user_id],
        todos := db.todos ++ [⟨db.next_id, room_code, user_id, category, task⟩],
        next_id := db.next_id + 1 })
  else (none, db)

/-- The `ORDER BY CASE category ... END` rank of `get_todos`. -/
def categoryRank : String → Nat
  | "game" => 1
  | "movie" => 2
  | "action" => 3
  | _ => 4

/-- Stable insertion keeping an element before the first strictly-later rank,
so equal ranks stay in `created_at` (insertion) order. -/
def insertByRank (t : Todo) : List Todo → List Todo
  | [] => [t]
  | u :: us =>
    if categoryRank u.category ≤ categoryRank t.category then
      u :: insertByRank t us
    else
      t :: u :: us

/-- Stable sort by category rank (ties keep insertion order), matching
`ORDER BY CASE category ... END, created_at`. -/
def sortByRank : List Todo → List Todo
  | [] => []
  | t :: ts => insertByRank t (sortByRank ts)

/-- `get_todos(room_code, category=None)`: empty list when the room does not
exist, otherwise the room's todos ordered by category rank then creation
time.  (The category-filtered variant is not needed by the claims.) -/
def get_todos (db : DB) (room_code : String) : List Todo :=
  if roomExists db room_code then
    sortByRank (db.todos.filter (fun t => t.room_code == room_code))
  else []

/-- `delete_todo(room_code, todo_id)`: `SELECT ... WHERE id = %s AND
room_code = %s`; `False` when absent, otherwise `DELETE` the matching rows,
commit, and report `rowcount > 0`.  No `user_id` is taken and no
`room_members` lookup is performed. -/
def delete_todo (db : DB) (room_code : String) (todo_id : Nat) : Bool × DB :=
  match db.todos.find? (fun t => t.id == todo_id && t.room_code == room_code) with
  | none => (false, db)
  | some _ =>
    (true,
      { db with
        todos := db.todos.filter
          (fun t => !(t.id == todo_id && t.room_code == room_code)) })

/-!
Dialogue-engine layer.  `context.user_data` is the per-user scratch state; the
fields below are the keys the embedded branches read or write.  Instants are
minutes: a calendar date is a day number `d`, the combined timestamp of date
`d` and clock time `hh:mm` is `d * 1440 + hh * 60 + mm`, and `now` is an
absolute minute count on the same scale.
-/

/-- The scratch slots of `context.user_data` used by the embedded branches.
`none` / `false` is "key absent". -/
structure UserData where
  current_room : Option String := none
  reminder_date : Option Nat := none
  last_todo : Option Todo := none
  room_name : Option String := none
  waiting_room_password : Bool := false
  waiting_custom_time : Bool := false
  deriving Repr, DecidableEq

/-- `context.user_data.clear()`. -/
def UserData.cleared : UserData := {}

/-- Split a character list at every `:` (groups between colons, in order). -/
def splitOnColon : List Char → List (List Char)
  | [] => [[]]
  | c :: rest =>
    if c = ':' then [] :: splitOnColon rest
    else
      match splitOnColon rest with
      | [] => [[c]]
      | g :: gs => (c :: g) :: gs

/-- Decimal value of a digit list. -/
def digitsToNat (cs : List Char) : Nat :=
  cs.foldl (fun a c => 10 * a + (c.toNat - '0'.toNat)) 0

/-- `datetime.strptime(time_str, "%H:%M")`: `%H` is one or two digits in
0..23, `%M` is one or two digits in 0..59, one `:` between them, the whole
string consumed; `none` is the caught `ValueError`. -/
def strptimeHM (s : String) : Option (Nat × Nat) :=
  match splitOnColon s.toList with
  | [hs, ms] =>
    if 1 ≤ hs.length && hs.length ≤ 2 && hs.all Char.isDigit &&
       1 ≤ ms.length && ms.length ≤ 2 && ms.all Char.isDigit then
      let hh := digitsToNat hs
      let mm := digitsToNat ms
      if hh ≤ 23 && mm ≤ 59 then some (hh, mm) else none
    else none
  | _ => none

/-- Outcome of the reminder-time steps of the engine. -/
inductive TimeOutcome where
  /-- `ValueError` from `strptime`, caught: "時間格式錯誤" re-prompt. -/
  | formatError
  /-- `reminder_date` or `last_todo` missing: "設置失敗，請重新嘗試". -/
  | expired
  /-- `reminder_datetime <= now`: "不能設置過去的時間作為提醒", no job. -/
  | pastRejected
  /-- job armed at the given absolute minute, confirmation sent. -/
  | scheduled (fireAt : Nat)
  deriving Repr, DecidableEq

/-- A `job_queue.run_once` job as armed by the engine. -/
structure Job where
  fireAt : Nat
  room_code : String
  task : String
  category : String
  deriving Repr, DecidableEq

/-- The `waiting_custom_time` branch of `handle_message`: parse the text with
`strptime("%H:%M")` (a `ValueError` is caught and answered with a format-error
reply, leaving every scratch slot in place), require `reminder_date` and
`last_todo`, combine date and time, reject a non-future instant (return
without popping any slot), otherwise arm one `run_once` job and pop
`last_todo`, `reminder_date`, `waiting_custom_time`. -/
def handleCustomTime (ud : UserData) (text : String) (now : Nat) :
    TimeOutcome × UserData × List Job :=
  match strptimeHM text with
  | none => (.formatError, ud, [])
  | some (hh, mm) =>
    match ud.reminder_date, ud.last_todo with
    | some d, some todo =>
      let fireAt := d * 1440 + hh * 60 + mm
      if fireAt ≤ now then (.pastRejected, ud, [])
      else
        (.scheduled fireAt,
          { ud with reminder_date := none, last_todo := none,
                    waiting_custom_time := false },
          [⟨fireAt, todo.room_code, todo.task, todo.category⟩])
    | _, _ => (.expired, ud, [])

/-- The `TIME_<hh>_<mm>` branch of `callback_query`: require `reminder_date`
and `last_todo`, combine, reject a non-future instant (return without popping
anything), otherwise arm one `run_once` job, confirm, and pop `last_todo` and
`reminder_date`. -/
def handleTimeCallback (ud : UserData) (hh mm now : Nat) :
    TimeOutcome × UserData × List Job :=
  match ud.reminder_date, ud.last_todo with
  | some d, some todo =>
    let fireAt := d * 1440 + hh * 60 + mm
    if fireAt ≤ now then (.pastRejected, ud, [])
    else
      (.scheduled fireAt,
        { ud with reminder_date := none, last_todo := none },
        [⟨fireAt, todo.room_code, todo.task, todo.category⟩])
  | _, _ => (.expired, ud, [])

/-- The `leave_<room_code>` branch of `callback_query`: call `leave_room` and
answer with the success or failure text.  The branch never touches
`context.user_data`. -/
def handleLeaveCallback (db : DB) (ud : UserData) (room_code : String)
    (user_id : Int) : (Bool × String) × DB × UserData :=
  let res := leave_room db room_code user_id
  (res.1, res.2, ud)

/-- Outcome of the `waiting_room_password` branch of `handle_message`. -/
inductive CreateFlowOutcome where
  /-- "房間創建成功" reply with the generated code; `user_data.clear()` ran. -/
  | roomCreated (code : String)
  /-- an exception escaped `handle_message` (no `try` wraps the
  `create_room` call, and `create_room` re-raises after rollback). -/
  | unhandledError
  /-- modelling artifact: the finite random supply ran out. -/
  | supplyExhausted
  deriving Repr, DecidableEq

/-- The `waiting_room_password` branch of `handle_message`: read `room_name`
from scratch, call `create_room`, then `user_data.clear()` and confirm.  The
call is not wrapped in `try`, so the exception path leaves the handler before
the clear and before any reply. -/
def handleRoomPassword (h : String → String) (db : DB) (ud : UserData)
    (password : String) (user_id : Int) (randoms : List Nat)
    (persistOk : Bool) : CreateFlowOutcome × DB × UserData :=
  match ud.room_name with
  | none => (.unhandledError, db, ud)
  | some name =>
    match create_room h db name password user_id randoms persistOk with
    | none => (.supplyExhausted, db, ud)
    | some (Except.error db') => (.unhandledError, db', ud)
    | some (Except.ok (code, db')) => (.roomCreated code, db', .cleared)

/-!
Concrete fixtures used by witnesses and counterexamples.
-/

/-- A room "Trip" with code "1234" whose stored password hash is "hpw". -/
def roomA : Room := ⟨"1234", "Trip", "hpw", 7⟩

/-- A todo in room "1234" authored by user 7. -/
def todoA : Todo := ⟨1, "1234", 7, "game", "book flights"⟩

/-- Store with room "1234", member 7, and one todo. -/
def exDB : DB := ⟨[roomA], [⟨"1234", 7⟩], [todoA], [7], 2⟩

/-- Store with room "1234" and one todo but no membership rows at all. -/
def exDBnoMember : DB := ⟨[roomA], [], [todoA], [7], 2⟩

/-- The empty store. -/
def exDBempty : DB := ⟨[], [], [], [], 1⟩

/-!
Helper lemmas on the store operations.
-/

theorem find?_filter_not {α : Type} (l : List α) (p : α → Bool) :
    (l.filter (fun t => !(p t))).find? p = none := by
  rw [List.find?_eq_none]
  intro a ha
  have h2 := (List.mem_filter.mp ha).2
  simp only [Bool.not_eq_true'] at h2
  simp [h2]

theorem isMember_iff (db : DB) (c : String) (u : Int) :
    isMember db c u = true ↔
      ∃ m ∈ db.room_members, m.room_code = c ∧ m.user_id = u := by
  simp [isMember, List.any_eq_true]

/-!
Claim theorems.
-/

/-- C3 (confirmed): `DeleteTodo(room_code, todo_id)` returns true exactly when
a todo row with that id existed in that room (and that row is removed: the
resulting store holds no row with that id in that room); it returns false in
every other case with no distinction between "id absent" and "id present in a
different room"; hence after a first call that returned true, a subsequent
call with the same id (and room) returns false. -/
theorem c3_delete_todo (db : DB) (rc : String) (tid : Nat) :
    ((delete_todo db rc tid).1 = true ↔
      ∃ t ∈ db.todos, t.id = tid ∧ t.room_code = rc) ∧
    (∀ t ∈ (delete_todo db rc tid).2.todos, ¬(t.id = tid ∧ t.room_code = rc)) ∧
    ((delete_todo db rc tid).1 = true →
      (delete_todo (delete_todo db rc tid).2 rc tid).1 = false) := by
  unfold delete_todo
  cases h : db.todos.find? (fun t => t.id == tid && t.room_code == rc) with
  | none =>
    have hn := List.find?_eq_none.mp h
    simp only [Bool.and_eq_true, beq_iff_eq] at hn
    refine ⟨?_, ?_, ?_⟩
    · constructor
      · intro hc
        exact absurd hc (by simp)
      · rintro ⟨t, ht, h1, h2⟩
        exact absurd ⟨h1, h2⟩ (hn t ht)
    · intro t ht hc
      exact hn t ht hc
    · intro hfalse
      exact absurd hfalse (by simp)
  | some t0 =>
    refine ⟨?_, ?_, ?_⟩
    · have hp := List.find?_some h
      have hm := List.mem_of_find?_eq_some h
      simp only [Bool.and_eq_true, beq_iff_eq] at hp
      simp only [true_iff]
      exact ⟨t0, hm, hp.1, hp.2⟩
    · intro t ht hc
      have h2 := (List.mem_filter.mp ht).2
      simp only [Bool.not_eq_true', Bool.and_eq_false_iff, beq_eq_false_iff_ne] at h2
      rcases h2 with h2 | h2
      · exact h2 hc.1
      · exact h2 hc.2
    · intro _
      simp only [find?_filter_not]

/-- C3 witness: in the concrete store, deleting todo 1 from room "1234"
succeeds, and the same deletion on the resulting store fails. -/
theorem c3_delete_todo_witness :
    (delete_todo exDB "1234" 1).1 = true ∧
    (delete_todo (delete_todo exDB "1234" 1).2 "1234" 1).1 = false :=
  ⟨by decide, (c3_delete_todo exDB "1234" 1).2.2 (by decide)⟩

/-- C1 counterexample: `delete_todo` performs no membership query at all — in
a store whose `room_members` table is empty (so no caller has an active
membership row for room "1234"), the mutating delete still succeeds. -/
theorem c1_delete_no_membership_cex :
    exDBnoMember.room_members = [] ∧
    (delete_todo exDBnoMember "1234" 1).1 = true := by decide

/-- C1 (corrected): `AddTodo` does require an active membership row at the
instant of the mutating call — it returns an id exactly when the room exists,
the caller's membership row exists, and persistence succeeds.  `DeleteTodo`,
however, checks no membership: its result and its effect on the todos table
are independent of the entire `room_members` table. -/
theorem c1_membership_at_write_time (db : DB) (rc : String) (u : Int)
    (c t : String) (ok : Bool) (ms : List Member) (tid : Nat) :
    ((add_todo_to_db db rc u c t ok).1.isSome =
      (ok && roomExists db rc && isMember db rc u)) ∧
    (delete_todo { db with room_members := ms } rc tid).1 =
      (delete_todo db rc tid).1 ∧
    (delete_todo { db with room_members := ms } rc tid).2.todos =
      (delete_todo db rc tid).2.todos := by
  refine ⟨?_, ?_, ?_⟩
  · unfold add_todo_to_db
    cases hr : roomExists db rc <;> cases hm : isMember db rc u <;>
      cases ok <;> simp
  · unfold delete_todo
    cases h : db.todos.find? (fun t => t.id == tid && t.room_code == rc) <;>
      simp [h]
  · unfold delete_todo
    cases h : db.todos.find? (fun t => t.id == tid && t.room_code == rc) <;>
      simp [h]

/-- C2 (confirmed): `AddTodo` is refused (returns no id and leaves the store
untouched, so `ListTodos` observes the same list) whenever the room does not
exist or the caller has no membership row at the time of the call; on success
the returned store — the committed state at the moment `AddTodo` returns —
holds exactly the old rows plus the new one. -/
theorem c2_add_todo (db : DB) (rc : String) (u : Int) (c task : String)
    (ok : Bool) :
    (roomExists db rc = false ∨ isMember db rc u = false →
      add_todo_to_db db rc u c task ok = (none, db) ∧
      get_todos (add_todo_to_db db rc u c task ok).2 rc = get_todos db rc) ∧
    (∀ i db', add_todo_to_db db rc u c task ok = (some i, db') →
      db'.todos = db.todos ++ [⟨i, rc, u, c, task⟩]) := by
  constructor
  · intro hre
    have heq : add_todo_to_db db rc u c task ok = (none, db) := by
      unfold add_todo_to_db
      rcases hre with hre | hre <;> simp [hre]
    exact ⟨heq, by rw [heq]⟩
  · intro i db' hadd
    unfold add_todo_to_db at hadd
    cases hr : roomExists db rc <;> rw [hr] at hadd
    · simp at hadd
    cases hm : isMember db rc u <;> rw [hm] at hadd
    · simp at hadd
    cases ok <;> simp at hadd
    obtain ⟨hi, hdb⟩ := hadd
    rw [← hdb]
    simp [← hi]

/-- C2 witness: user 7 has no membership row in `exDBnoMember`, so the add is
refused and `ListTodos` ("get_todos") is unchanged. -/
theorem c2_add_todo_witness :
    add_todo_to_db exDBnoMember "1234" 7 "game" "walk" true =
      (none, exDBnoMember) ∧
    get_todos (add_todo_to_db exDBnoMember "1234" 7 "game" "walk" true).2
        "1234" = get_todos exDBnoMember "1234" :=
  (c2_add_todo exDBnoMember "1234" 7 "game" "walk" true).1 (Or.inr (by decide))

/-- A 4-digit numeric room code: the decimal rendering of a natural in the
inclusive range of `random.randint(1000, 9999)`. -/
def isFourDigitCode (s : String) : Prop :=
  ∃ n : Nat, 1000 ≤ n ∧ n ≤ 9999 ∧ s = toString n

theorem generate_room_code_fourDigit (r : Nat) :
    isFourDigitCode (generate_room_code r) := by
  refine ⟨1000 + r % 9000, by omega, ?_, rfl⟩
  have hlt : r % 9000 < 9000 := Nat.mod_lt _ (by omega)
  omega

theorem freshCode_spec (db : DB) (rs : List Nat) (code : String) :
    freshCode db rs = some code →
    roomExists db code = false ∧ isFourDigitCode code := by
  induction rs with
  | nil => intro hc; simp [freshCode] at hc
  | cons r rs ih =>
    intro hc
    unfold freshCode at hc
    by_cases hex : roomExists db (generate_room_code r)
    · rw [if_pos hex] at hc
      exact ih hc
    · rw [if_neg hex] at hc
      obtain rfl : generate_room_code r = code := by
        simpa using hc
      exact ⟨Bool.not_eq_true _ ▸ hex, generate_room_code_fourDigit r⟩

theorem memberCount_pos (db : DB) (c : String) (u : Int)
    (hm : isMember db c u = true) : 1 ≤ memberCount db c u := by
  obtain ⟨m, hmem, hp⟩ := List.any_eq_true.mp hm
  exact List.length_pos_of_mem (List.mem_filter.mpr ⟨hmem, hp⟩)

theorem memberCount_eq_zero (db : DB) (c : String) (u : Int)
    (hm : isMember db c u = false) : memberCount db c u = 0 := by
  unfold isMember at hm
  have hall := List.any_eq_false.mp hm
  unfold memberCount
  rw [List.length_eq_zero]
  exact List.filter_eq_nil_iff.mpr hall

theorem join_room_found (h : String → String) (db : DB) (code pw : String)
    (u : Int) (r : Room)
    (hfind : db.rooms.find? (fun rm => rm.room_code == code) = some r) :
    join_room h db code pw u =
      if h pw != r.password then ((false, "密碼錯誤"), db)
      else if isMember db code u then ((true, r.room_name), db)
      else ((true, r.room_name),
        { db with room_members := db.room_members ++ [⟨code, u⟩] }) := by
  unfold join_room
  rw [hfind]

/-- C4 (confirmed): on the committed path `create_room` returns a 4-digit
numeric code that collides with no room existing in the store (the generator
is retried past every collision), and the successor state appends exactly the
room row — whose password column holds `h password`, the one-way hash of the
password, not the password — and the owner's membership row.  On the
persistence-failure path the rollback leaves the pre-state committed: neither
row survives. -/
theorem c4_create_room (h : String → String) (db : DB) (name pw : String)
    (owner : Int) (randoms : List Nat) :
    (∀ code db', create_room h db name pw owner randoms true =
        some (Except.ok (code, db')) →
      isFourDigitCode code ∧ roomExists db code = false ∧
      db'.rooms = db.rooms ++ [⟨code, name, h pw, owner⟩] ∧
      db'.room_members = db.room_members ++ [⟨code, owner⟩]) ∧
    (∀ e, create_room h db name pw owner randoms false = some e →
      e = Except.error db) := by
  constructor
  · intro code db' hc
    unfold create_room at hc
    cases hf : freshCode db randoms with
    | none => rw [hf] at hc; simp at hc
    | some c0 =>
      rw [hf] at hc
      simp only [Option.map_some', if_true, Option.some.injEq,
        Except.ok.injEq, Prod.mk.injEq] at hc
      obtain ⟨rfl, rfl⟩ := hc
      obtain ⟨hex, hfour⟩ := freshCode_spec db randoms c0 hf
      exact ⟨hfour, hex, rfl, rfl⟩
  · intro e hc
    unfold create_room at hc
    cases hf : freshCode db randoms with
    | none => rw [hf] at hc; simp at hc
    | some c0 =>
      rw [hf] at hc
      simp only [Option.map_some', if_false, Option.some.injEq] at hc
      exact hc.symm

/-- The store committed by the witness run of `create_room`. -/
def exDBcreated : DB :=
  ⟨[⟨"1005", "Trip", "pw1", 7⟩], [⟨"1005", 7⟩], [], [], 1⟩

/-- C4 witness: on the empty store with random draw 5 the code "1005" is
generated, is 4-digit, fresh, and both rows are appended. -/
theorem c4_create_room_witness :
    isFourDigitCode "1005" ∧ roomExists exDBempty "1005" = false ∧
    exDBcreated.rooms = exDBempty.rooms ++ [⟨"1005", "Trip", id "pw1", 7⟩] ∧
    exDBcreated.room_members = exDBempty.room_members ++ [⟨"1005", 7⟩] :=
  (c4_create_room id exDBempty "Trip" "pw1" 7 [5]).1 "1005" exDBcreated rfl

/-- C5 (confirmed): `join_room` answers "房間不存在" (NotFound) and leaves the
store unchanged when no room carries the code, "密碼錯誤" (WrongPassword)
untouched when the hash of the supplied password differs from the stored
hash, and otherwise succeeds with the room's display name, inserting the
membership row idempotently: under the table's UNIQUE constraint
(`memberCount ≤ 1`) the count afterwards is exactly 1, and repeating the same
call succeeds again without changing the store. -/
theorem c5_join_room (h : String → String) (db : DB) (code pw : String)
    (u : Int) :
    (db.rooms.find? (fun rm => rm.room_code == code) = none →
      join_room h db code pw u = ((false, "房間不存在"), db)) ∧
    (∀ r, db.rooms.find? (fun rm => rm.room_code == code) = some r →
      h pw ≠ r.password →
      join_room h db code pw u = ((false, "密碼錯誤"), db)) ∧
    (∀ r, db.rooms.find? (fun rm => rm.room_code == code) = some r →
      h pw = r.password → memberCount db code u ≤ 1 →
      (join_room h db code pw u).1 = (true, r.room_name) ∧
      memberCount (join_room h db code pw u).2 code u = 1 ∧
      join_room h (join_room h db code pw u).2 code pw u =
        ((true, r.room_name), (join_room h db code pw u).2)) := by
  refine ⟨?_, ?_, ?_⟩
  · intro hfind
    unfold join_room
    rw [hfind]
  · intro r hfind hpw
    unfold join_room
    rw [hfind]
    simp [hpw]
  · intro r hfind hpw hcount
    have hbne : (h pw != r.password) = false := by simp [hpw]
    cases hm : isMember db code u with
    | true =>
      have hres : join_room h db code pw u = ((true, r.room_name), db) := by
        rw [join_room_found h db code pw u r hfind, hbne, hm]
        simp
      refine ⟨by rw [hres], ?_, ?_⟩
      · rw [hres]
        exact Nat.le_antisymm hcount (memberCount_pos db code u hm)
      · rw [hres]
        exact hres
    | false =>
      have hres : join_room h db code pw u =
          ((true, r.room_name),
            { db with room_members := db.room_members ++ [⟨code, u⟩] }) := by
        rw [join_room_found h db code pw u r hfind, hbne, hm]
        simp
      have hm' : isMember
          { db with room_members := db.room_members ++ [⟨code, u⟩] }
          code u = true := by
        simp [isMember, List.any_append]
      refine ⟨by rw [hres], ?_, ?_⟩
      · rw [hres]
        have h0 := memberCount_eq_zero db code u hm
        unfold memberCount at h0 ⊢
        simp only [List.filter_append, List.length_append]
        simp [h0]
      · rw [hres]
        have hfind2 : ({ db with
            room_members := db.room_members ++ [⟨code, u⟩] } : DB).rooms.find?
            (fun rm => rm.room_code == code) = some r := hfind
        have hres2 : join_room h
            { db with room_members := db.room_members ++ [⟨code, u⟩] }
            code pw u =
            ((true, r.room_name),
              { db with room_members := db.room_members ++ [⟨code, u⟩] }) := by
          rw [join_room_found h
            { db with room_members := db.room_members ++ [⟨code, u⟩] }
            code pw u r hfind2, hbne, hm']
          simp
        exact hres2

/-- C5 witness: user 9 joins room "1234" with the correct password on the
concrete store; the join succeeds with name "Trip", the membership count is 1,
and the identical second call is a no-op success. -/
theorem c5_join_room_witness :
    (join_room id exDB "1234" "hpw" 9).1 = (true, "Trip") ∧
    memberCount (join_room id exDB "1234" "hpw" 9).2 "1234" 9 = 1 ∧
    join_room id (join_room id exDB "1234" "hpw" 9).2 "1234" "hpw" 9 =
      ((true, "Trip"), (join_room id exDB "1234" "hpw" 9).2) :=
  (c5_join_room id exDB "1234" "hpw" 9).2.2 roomA (by decide) (by decide)
    (by decide)

/-- C10 (confirmed): the password hash comparison in `join_room` happens
before, and independently of, the membership insert — a user who already
holds a membership row for the room still receives the wrong-password failure
(with the store untouched) when the supplied password hashes differently. -/
theorem c10_password_checked_before_membership (h : String → String) (db : DB)
    (code pw : String) (u : Int) (r : Room)
    (hfind : db.rooms.find? (fun rm => rm.room_code == code) = some r)
    (hpw : h pw ≠ r.password) (_hmem : isMember db code u = true) :
    join_room h db code pw u = ((false, "密碼錯誤"), db) := by
  unfold join_room
  rw [hfind]
  simp [hpw]

/-- C10 witness: user 7 is a member of room "1234" in the concrete store, yet
joining with the wrong password "bad" fails with the wrong-password reply. -/
theorem c10_witness :
    join_room id exDB "1234" "bad" 7 = ((false, "密碼錯誤"), exDB) :=
  c10_password_checked_before_membership id exDB "1234" "bad" 7 roomA
    (by decide) (by decide) (by decide)

/-- Scratch state in the middle of the reminder flow: calendar day 0
selected, draft todo held, waiting for a custom time. -/
def exUD : UserData :=
  { reminder_date := some 0, last_todo := some todoA,
    waiting_custom_time := true }

/-- C6 counterexample: at `now` = minute 630 of day 0 (10:30) with today
selected as the reminder date, the relative phrase "in 2 hours" is answered
with a format error, not scheduled at `now + 2h`; and the already-past
literal time "09:00" is rejected as past, not rolled forward to the next
day's 09:00 — the claimed `ParseReminderTime` behaviours do not exist. -/
theorem c6_parse_time_cex :
    (handleCustomTime exUD "in 2 hours" 630).1 = TimeOutcome.formatError ∧
    (handleCustomTime exUD "in 2 hours" 630).1 ≠
      TimeOutcome.scheduled (630 + 120) ∧
    (handleCustomTime exUD "09:00" 630).1 = TimeOutcome.pastRejected ∧
    (handleCustomTime exUD "09:00" 630).1 ≠
      TimeOutcome.scheduled (1 * 1440 + 9 * 60) := by
  decide

/-- C6 (corrected): the source has no standalone `ParseReminderTime` and no
relative-phrase or roll-forward support.  Its time parsing is the
custom-time step of `handle_message`: only a literal "HH:MM" accepted by
`strptime` passes — "25:00" and "in 2 hours" are answered with a caught
format error (never thrown past the handler) — and the accepted time is
combined with the separately selected date; a combined instant not strictly
in the future is rejected, never rolled forward. -/
theorem c6_custom_time_step (ud : UserData) (now : Nat) :
    (handleCustomTime ud "25:00" now).1 = TimeOutcome.formatError ∧
    (handleCustomTime ud "in 2 hours" now).1 = TimeOutcome.formatError ∧
    (∀ text hh mm d todo, strptimeHM text = some (hh, mm) →
      ud.reminder_date = some d → ud.last_todo = some todo →
      handleCustomTime ud text now =
        if d * 1440 + hh * 60 + mm ≤ now then
          (TimeOutcome.pastRejected, ud, [])
        else
          (TimeOutcome.scheduled (d * 1440 + hh * 60 + mm),
            { ud with reminder_date := none, last_todo := none,
                      waiting_custom_time := false },
            [⟨d * 1440 + hh * 60 + mm, todo.room_code, todo.task,
              todo.category⟩])) := by
  refine ⟨?_, ?_, ?_⟩
  · have h25 : strptimeHM "25:00" = none := by decide
    simp [handleCustomTime, h25]
  · have hih : strptimeHM "in 2 hours" = none := by decide
    simp [handleCustomTime, hih]
  · intro text hh mm d todo hp hd ht
    unfold handleCustomTime
    rw [hp, hd, ht]

/-- C6 witness: the still-future literal time "11:00" on day 0 at `now` 630
takes the validated branch of the custom-time step. -/
theorem c6_custom_time_witness :
    handleCustomTime exUD "11:00" 630 =
      if 0 * 1440 + 11 * 60 + 0 ≤ 630 then
        (TimeOutcome.pastRejected, exUD, [])
      else
        (TimeOutcome.scheduled (0 * 1440 + 11 * 60 + 0),
          { exUD with reminder_date := none, last_todo := none,
                      waiting_custom_time := false },
          [⟨0 * 1440 + 11 * 60 + 0, todoA.room_code, todoA.task,
            todoA.category⟩]) :=
  (c6_custom_time_step exUD 630).2.2 "11:00" 11 0 0 todoA (by decide) rfl rfl

/-- C7 (confirmed): in the preset-time callback, a combined timestamp that is
not strictly in the future arms no job and leaves the scratch state — in
particular the draft todo reference `last_todo` — untouched, while a strictly
future timestamp arms exactly one one-shot job for the draft todo, confirms
it as scheduled, and pops `last_todo` and `reminder_date` (back to idle). -/
theorem c7_time_callback (ud : UserData) (hh mm now d : Nat) (todo : Todo)
    (hd : ud.reminder_date = some d) (ht : ud.last_todo = some todo) :
    (d * 1440 + hh * 60 + mm ≤ now →
      handleTimeCallback ud hh mm now = (TimeOutcome.pastRejected, ud, []) ∧
      (handleTimeCallback ud hh mm now).2.1.last_todo = some todo) ∧
    (now < d * 1440 + hh * 60 + mm →
      (handleTimeCallback ud hh mm now).2.2 =
        [⟨d * 1440 + hh * 60 + mm, todo.room_code, todo.task,
          todo.category⟩] ∧
      (handleTimeCallback ud hh mm now).1 =
        TimeOutcome.scheduled (d * 1440 + hh * 60 + mm) ∧
      (handleTimeCallback ud hh mm now).2.1.last_todo = none ∧
      (handleTimeCallback ud hh mm now).2.1.reminder_date = none) := by
  have hred : handleTimeCallback ud hh mm now =
      if d * 1440 + hh * 60 + mm ≤ now then
        (TimeOutcome.pastRejected, ud, [])
      else
        (TimeOutcome.scheduled (d * 1440 + hh * 60 + mm),
          { ud with reminder_date := none, last_todo := none },
          [⟨d * 1440 + hh * 60 + mm, todo.room_code, todo.task,
            todo.category⟩]) := by
    unfold handleTimeCallback
    rw [hd, ht]
  constructor
  · intro hle
    rw [hred, if_pos hle]
    exact ⟨rfl, ht⟩
  · intro hlt
    rw [hred, if_neg (by omega)]
    exact ⟨rfl, rfl, rfl, rfl⟩

/-- C7 witness: at `now` = minute 630 of day 0, the preset time 09:00 of day
0 is past, so no job is armed and the draft todo reference survives. -/
theorem c7_time_callback_witness :
    handleTimeCallback exUD 9 0 630 = (TimeOutcome.pastRejected, exUD, []) ∧
    (handleTimeCallback exUD 9 0 630).2.1.last_todo = some todoA :=
  (c7_time_callback exUD 9 0 630 0 todoA rfl rfl).1 (by decide)

/-- Scratch state whose cached current-room selection is room "1234". -/
def exUD2 : UserData := { current_room := some "1234" }

/-- C8 counterexample: user 7 leaves room "1234" — the very room held in the
cached current-room selection — successfully, yet the selection is not
cleared: the leave branch never touches `context.user_data`. -/
theorem c8_leave_keeps_selection_cex :
    exUD2.current_room = some "1234" ∧
    (handleLeaveCallback exDB exUD2 "1234" 7).1.1 = true ∧
    (handleLeaveCallback exDB exUD2 "1234" 7).2.2.current_room =
      some "1234" := by
  decide

/-- C8 (corrected): selecting a room on the leave picker calls `leave_room`
for it, and the per-user dialogue state is left entirely unchanged — in
particular the cached current-room selection is NOT cleared, even when it
names the room just left. -/
theorem c8_leave_callback (db : DB) (ud : UserData) (rc : String) (u : Int) :
    (handleLeaveCallback db ud rc u).1 = (leave_room db rc u).1 ∧
    (handleLeaveCallback db ud rc u).2.1 = (leave_room db rc u).2 ∧
    (handleLeaveCallback db ud rc u).2.2.current_room = ud.current_room ∧
    (handleLeaveCallback db ud rc u).2.2 = ud :=
  ⟨rfl, rfl, rfl, rfl⟩

/-- Scratch state in the room-creation flow: name entered, password pending. -/
def exUD3 : UserData :=
  { room_name := some "Trip", waiting_room_password := true }

/-- C9 counterexample: a persistence failure inside `create_room` during the
room-creation flow re-raises after rollback, and the call site in
`handle_message` wraps it in no `try` — the exception leaves the handler
unhandled, no error reply is produced by the engine, and the dialogue state
is NOT reverted to idle (it still awaits the room password). -/
theorem c9_create_room_failure_cex :
    exUD3.waiting_room_password = true ∧
    (handleRoomPassword id exDBempty exUD3 "pw1" 7 [5] false).1 =
      CreateFlowOutcome.unhandledError ∧
    (handleRoomPassword id exDBempty exUD3 "pw1" 7 [5] false).2.2 =
      exUD3 := by
  decide

/-- C9 (corrected): a store failure raised by `create_room` in the
room-creation flow is NOT caught at the engine boundary: it propagates
unhandled out of `handle_message`, the rollback leaves the store at its
pre-state, and the pending dialogue state survives instead of reverting to
idle. -/
theorem c9_create_room_failure (h : String → String) (db : DB)
    (ud : UserData) (pw : String) (u : Int) (randoms : List Nat)
    (name code : String) (hn : ud.room_name = some name)
    (hf : freshCode db randoms = some code) :
    handleRoomPassword h db ud pw u randoms false =
      (CreateFlowOutcome.unhandledError, db, ud) := by
  unfold handleRoomPassword
  rw [hn]
  unfold create_room
  rw [hf]
  rfl

/-- C9 witness: the concrete failing run on the empty store. -/
theorem c9_create_room_failure_witness :
    handleRoomPassword id exDBempty exUD3 "pw1" 7 [5] false =
      (CreateFlowOutcome.unhandledError, exDBempty, exUD3) :=
  c9_create_room_failure id exDBempty exUD3 "pw1" 7 [5] "Trip" "1005" rfl
    (by decide)

end BotCore
